import Mathlib

/-!
Shallow embedding of the DigiBuster technical-support API core
(src/backend/server.py): user and ticket data model, authentication
helpers, and the request handlers for register, login, current-user,
ticket creation, ticket listing, single-ticket read, and ticket update.

Timestamps are modelled as natural numbers (seconds of UTC time).
The MongoDB collections are modelled as Lean lists in insertion order;
`find_one` is `List.find?` (first match) and `to_list(1000)` is
`List.take 1000` after filtering, exactly as the driver behaves.
External collaborators (the bcrypt hash and the JWT library) are
modelled as explicit parameters or small structures, documented at
their definitions.
-/

set_option autoImplicit false

namespace DigiBuster

/-- The `UserRole` enum from server.py. -/
inductive UserRole where
  | customer
  | agent
deriving DecidableEq, Repr

/-- The `TicketStatus` enum from server.py. -/
inductive TicketStatus where
  | «open»
  | in_progress
  | resolved
  | closed
deriving DecidableEq, Repr

/-- The `TicketPriority` enum from server.py. -/
inductive TicketPriority where
  | low
  | medium
  | high
  | critical
deriving DecidableEq, Repr

/-- The `TicketCategory` enum from server.py. -/
inductive TicketCategory where
  | hardware
  | software
  | network
  | account
  | other
deriving DecidableEq, Repr

/-- The `User` pydantic model (public fields only; the stored hash lives in
`StoredUser`, matching the code where `User` has no password field and the
hash is added to the raw dict only when persisting). -/
structure User where
  id : String
  email : String
  full_name : String
  role : UserRole
  created_at : Nat
  is_active : Bool
deriving DecidableEq, Repr

/-- A document of the `users` collection: the `User` fields plus the
`password` key holding the bcrypt hash (`user_dict["password"] = hashed_password`). -/
structure StoredUser where
  id : String
  email : String
  full_name : String
  role : UserRole
  created_at : Nat
  is_active : Bool
  password : String
deriving DecidableEq, Repr

/-- Reconstruction `User(**user)`: pydantic drops the extra `password` key of the stored
document, keeping only the declared `User` fields. -/
def StoredUser.toUser (su : StoredUser) : User :=
  { id := su.id, email := su.email, full_name := su.full_name,
    role := su.role, created_at := su.created_at, is_active := su.is_active }

/-- The `UserResponse` pydantic model: the response shape for register, login
and `/auth/me`; it has no password field. -/
structure UserResponse where
  id : String
  email : String
  full_name : String
  role : UserRole
  created_at : Nat
  is_active : Bool
deriving DecidableEq, Repr

/-- Projection `UserResponse(**user.dict())`. -/
def User.toResponse (u : User) : UserResponse :=
  { id := u.id, email := u.email, full_name := u.full_name,
    role := u.role, created_at := u.created_at, is_active := u.is_active }

/-- The `UserCreate` request model. -/
structure UserCreate where
  email : String
  password : String
  full_name : String
  role : UserRole
deriving DecidableEq, Repr

/-- The `UserLogin` request model. -/
structure UserLogin where
  email : String
  password : String
deriving DecidableEq, Repr

/-- The `TicketCreate` request model: title and description are plain `str`
fields (required by shape, with no further constraint in the code). -/
structure TicketCreate where
  title : String
  description : String
  category : TicketCategory
  priority : TicketPriority
deriving DecidableEq, Repr

/-- The `Ticket` pydantic model / document of the `tickets` collection. -/
structure Ticket where
  id : String
  title : String
  description : String
  category : TicketCategory
  priority : TicketPriority
  status : TicketStatus
  customer_id : String
  customer_name : String
  agent_id : Option String
  agent_name : Option String
  created_at : Nat
  updated_at : Nat
deriving DecidableEq, Repr

/-- The `TicketUpdate` request model: every field optional (defaults `None`). -/
structure TicketUpdate where
  status : Option TicketStatus
  agent_id : Option String
  agent_name : Option String
deriving DecidableEq, Repr

/-- An `HTTPException`: status code and detail message. -/
structure HTTPError where
  status_code : Nat
  detail : String
deriving DecidableEq, Repr

/-- The storage backend: the `users` and `tickets` collections, as lists in
insertion order. -/
structure DB where
  users : List StoredUser
  tickets : List Ticket
deriving DecidableEq, Repr

/-- The `JWT_SECRET` constant from server.py. -/
def JWT_SECRET : String := "digibuster_secret_key_2025"

/-- The `JWT_EXPIRATION_HOURS` constant from server.py. -/
def JWT_EXPIRATION_HOURS : Nat := 24

/-- The payload of a JWT: the optional `sub` claim and the `exp` claim
(absolute expiration time in seconds). -/
structure JwtPayload where
  sub : Option String
  exp : Nat
deriving DecidableEq, Repr

/-- Modelled from the spec: a signed token of the external JWT library
(`jwt.encode`). The signature is modelled by recording the symmetric
secret the token was signed with; `jwt_decode` accepts the token exactly
when the secrets match. -/
structure JwtToken where
  payload : JwtPayload
  secret : String
deriving DecidableEq, Repr

/-- Modelled from the spec: `jwt.decode(token, secret, algorithms=...)` of
the external JWT library. Verification fails (raises `PyJWTError`) when
the signature does not match the given secret or the embedded expiration
has passed; the library treats the token as expired once `exp <= now`, so
it is accepted exactly when `now < exp`. On success the payload is
returned. -/
def jwt_decode (tok : JwtToken) (secret : String) (now : Nat) : Option JwtPayload :=
  if tok.secret = secret ∧ now < tok.payload.exp then some tok.payload else none

/-- Function `create_access_token(data={"sub": user_id})` evaluated at time `now`:
the payload carries the subject and `exp = now + 24 hours` (in seconds),
signed with the process-wide secret. -/
def create_access_token (sub : String) (now : Nat) : JwtToken :=
  { payload := { sub := some sub, exp := now + JWT_EXPIRATION_HOURS * 3600 },
    secret := JWT_SECRET }

/-- Handler `get_current_user`: decode the bearer token, require a `sub` claim,
then load the user by id; any decode failure or a missing user yields 401. -/
def get_current_user (db : DB) (tok : JwtToken) (now : Nat) : Except HTTPError User :=
  match jwt_decode tok JWT_SECRET now with
  | none => .error { status_code := 401, detail := "Invalid authentication credentials" }
  | some payload =>
    match payload.sub with
    | none => .error { status_code := 401, detail := "Invalid authentication credentials" }
    | some user_id =>
      match db.users.find? (fun u => u.id == user_id) with
      | none => .error { status_code := 401, detail := "User not found" }
      | some user => .ok user.toUser

/-- Handler `register`: reject a duplicate email with 400, otherwise hash the
password (the hash function `hashpw`, modelling `bcrypt.hashpw` with its
salt, is passed in), persist the user document with the hash under the
`password` key, and return the public fields. `newId` models
`str(uuid.uuid4())` and `now` models `datetime.utcnow()`. -/
def register (db : DB) (hashpw : String → String) (user_data : UserCreate)
    (newId : String) (now : Nat) : DB × Except HTTPError UserResponse :=
  match db.users.find? (fun u => u.email == user_data.email) with
  | some _ => (db, .error { status_code := 400, detail := "Email already registered" })
  | none =>
    let user : User :=
      { id := newId, email := user_data.email, full_name := user_data.full_name,
        role := user_data.role, created_at := now, is_active := true }
    let stored : StoredUser :=
      { id := user.id, email := user.email, full_name := user.full_name,
        role := user.role, created_at := user.created_at, is_active := user.is_active,
        password := hashpw user_data.password }
    ({ db with users := db.users ++ [stored] }, .ok user.toResponse)

/-- The `LoginResponse` model. -/
structure LoginResponse where
  access_token : JwtToken
  token_type : String
  user : UserResponse
deriving DecidableEq, Repr

/-- Handler `login`: look the user up by email; if the lookup fails or the hash
comparison (`checkpw`, modelling `bcrypt.checkpw`) fails, raise the one
undifferentiated 401; otherwise issue a token for the user's id and return
it with the public fields. -/
def login (db : DB) (checkpw : String → String → Bool) (user_data : UserLogin)
    (now : Nat) : Except HTTPError LoginResponse :=
  match db.users.find? (fun u => u.email == user_data.email) with
  | none => .error { status_code := 401, detail := "Invalid email or password" }
  | some user =>
    if checkpw user_data.password user.password then
      .ok { access_token := create_access_token user.id now,
            token_type := "bearer",
            user := user.toUser.toResponse }
    else
      .error { status_code := 401, detail := "Invalid email or password" }

/-- Handler `get_current_user_info` (`GET /auth/me`): return the caller's public
fields. -/
def get_current_user_info (current_user : User) : UserResponse :=
  current_user.toResponse

/-- Handler `create_ticket`: only customers may create; the new ticket takes the
request fields, the caller's id and name as owner, the default status
`open`, no agent, and fresh timestamps; it is persisted and returned.
`newId` models `str(uuid.uuid4())` and `now` models `datetime.utcnow()`. -/
def create_ticket (db : DB) (ticket_data : TicketCreate) (current_user : User)
    (newId : String) (now : Nat) : DB × Except HTTPError Ticket :=
  if current_user.role ≠ UserRole.customer then
    (db, .error { status_code := 403, detail := "Only customers can create tickets" })
  else
    let ticket : Ticket :=
      { id := newId, title := ticket_data.title, description := ticket_data.description,
        category := ticket_data.category, priority := ticket_data.priority,
        status := TicketStatus.«open»,
        customer_id := current_user.id, customer_name := current_user.full_name,
        agent_id := none, agent_name := none,
        created_at := now, updated_at := now }
    ({ db with tickets := db.tickets ++ [ticket] }, .ok ticket)

/-- Handler `get_tickets` (`GET /tickets`): customers get the tickets whose
`customer_id` is their own id, agents get the whole collection; either
query is retrieved with `.to_list(1000)`, which returns at most the first
1000 documents. -/
def get_tickets (db : DB) (current_user : User) : List Ticket :=
  if current_user.role = UserRole.customer then
    (db.tickets.filter (fun t => t.customer_id == current_user.id)).take 1000
  else
    db.tickets.take 1000

/-- Handler `get_ticket` (`GET /tickets/{id}`): 404 when no ticket has the id;
403 when the caller is a customer who does not own it; otherwise the
ticket. -/
def get_ticket (db : DB) (ticket_id : String) (current_user : User) :
    Except HTTPError Ticket :=
  match db.tickets.find? (fun t => t.id == ticket_id) with
  | none => .error { status_code := 404, detail := "Ticket not found" }
  | some ticket_obj =>
    if current_user.role = UserRole.customer ∧ ticket_obj.customer_id ≠ current_user.id then
      .error { status_code := 403, detail := "Access denied" }
    else
      .ok ticket_obj

/-- The effect of the `$set` document built by `update_ticket` on one
ticket document: a field among status / agent_id / agent_name enters the
`$set` only when its request value is truthy (for the two string fields
`None` and the empty string are both falsy; a status enum value is always
truthy), and `updated_at` is always set to the current time. -/
def applyTicketUpdate (ticket_update : TicketUpdate) (now : Nat) (t : Ticket) : Ticket :=
  { t with
    status :=
      match ticket_update.status with
      | some s => s
      | none => t.status,
    agent_id :=
      match ticket_update.agent_id with
      | some s => if s = "" then t.agent_id else some s
      | none => t.agent_id,
    agent_name :=
      match ticket_update.agent_name with
      | some s => if s = "" then t.agent_name else some s
      | none => t.agent_name,
    updated_at := now }

/-- Effect of `update_one` with an id filter: rewrite the first document
matching the id, leave the rest untouched. -/
def updateFirst (ts : List Ticket) (ticket_id : String) (f : Ticket → Ticket) :
    List Ticket :=
  match ts with
  | [] => []
  | t :: rest =>
    if t.id == ticket_id then f t :: rest else t :: updateFirst rest ticket_id f

/-- Handler `update_ticket` (`PUT /tickets/{id}`): 403 for any non-agent caller
(checked before anything else), 404 when the id does not exist, otherwise
apply the `$set` update and re-read the document. The final branch where
the re-read fails cannot occur (the update preserves the id); the code
would crash there, modelled as a 500. -/
def update_ticket (db : DB) (ticket_id : String) (ticket_update : TicketUpdate)
    (current_user : User) (now : Nat) : DB × Except HTTPError Ticket :=
  if current_user.role ≠ UserRole.agent then
    (db, .error { status_code := 403, detail := "Only agents can update tickets" })
  else
    match db.tickets.find? (fun t => t.id == ticket_id) with
    | none => (db, .error { status_code := 404, detail := "Ticket not found" })
    | some _ =>
      let db' : DB :=
        { db with tickets := updateFirst db.tickets ticket_id (applyTicketUpdate ticket_update now) }
      match db'.tickets.find? (fun t => t.id == ticket_id) with
      | none => (db', .error { status_code := 500, detail := "Internal Server Error" })
      | some updated_ticket => (db', .ok updated_ticket)


/-! ### Concrete fixtures used by witnesses and counterexamples -/

/-- A sample customer. -/
def custA : User :=
  { id := "A", email := "a@example.com", full_name := "Cust A",
    role := UserRole.customer, created_at := 0, is_active := true }

/-- A second, distinct sample customer. -/
def custB : User :=
  { id := "B", email := "b@example.com", full_name := "Cust B",
    role := UserRole.customer, created_at := 0, is_active := true }

/-- A sample agent. -/
def agentG : User :=
  { id := "G", email := "g@example.com", full_name := "Agent G",
    role := UserRole.agent, created_at := 0, is_active := true }

/-- A sample ticket owned by customer `A`. -/
def tktA : Ticket :=
  { id := "t1", title := "T", description := "D",
    category := TicketCategory.other, priority := TicketPriority.medium,
    status := TicketStatus.«open», customer_id := "A", customer_name := "Cust A",
    agent_id := none, agent_name := none, created_at := 0, updated_at := 0 }

/-- A sample stored user record for customer `A` (hash `"h"`). -/
def storedA : StoredUser :=
  { id := "A", email := "a@example.com", full_name := "Cust A",
    role := UserRole.customer, created_at := 0, is_active := true,
    password := "h" }

/-- A sample database: one stored user, one ticket owned by `A`. -/
def dbW : DB := { users := [storedA], tickets := [tktA] }

/-! ### Claim theorems -/

/-- C1: fetching a single ticket returns the ticket iff the id exists and
the caller is an agent or the owning customer; an existing ticket read by a
customer with a different id fails 403 "Access denied"; a missing id fails
404 "Ticket not found" for any caller. -/
theorem get_ticket_read_policy (db : DB) (tid : String) (u : User) :
    (∀ t, db.tickets.find? (fun x => x.id == tid) = some t →
      ((u.role = UserRole.agent ∨ (u.role = UserRole.customer ∧ u.id = t.customer_id)) →
        get_ticket db tid u = .ok t) ∧
      (u.role = UserRole.customer → u.id ≠ t.customer_id →
        get_ticket db tid u = .error { status_code := 403, detail := "Access denied" })) ∧
    (db.tickets.find? (fun x => x.id == tid) = none →
      get_ticket db tid u = .error { status_code := 404, detail := "Ticket not found" }) ∧
    (∀ t, get_ticket db tid u = .ok t →
      db.tickets.find? (fun x => x.id == tid) = some t ∧
      (u.role = UserRole.agent ∨ (u.role = UserRole.customer ∧ u.id = t.customer_id))) := by
  refine ⟨?_, ?_, ?_⟩
  · intro t ht
    constructor
    · intro hallow
      simp only [get_ticket, ht]
      rw [if_neg]
      rcases hallow with h | ⟨hc, hid⟩
      · rintro ⟨h1, _⟩
        rw [h] at h1
        exact UserRole.noConfusion h1
      · rintro ⟨_, h2⟩
        exact h2 hid.symm
    · intro hc hid
      simp only [get_ticket, ht]
      rw [if_pos ⟨hc, fun h => hid h.symm⟩]
  · intro hn
    simp only [get_ticket, hn]
  · intro t hok
    cases hf : db.tickets.find? (fun x => x.id == tid) with
    | none =>
      simp only [get_ticket, hf] at hok
      exact Except.noConfusion hok
    | some t0 =>
      simp only [get_ticket, hf] at hok
      by_cases hcond : u.role = UserRole.customer ∧ t0.customer_id ≠ u.id
      · rw [if_pos hcond] at hok; exact Except.noConfusion hok
      · rw [if_neg hcond] at hok
        obtain rfl : t0 = t := Except.ok.inj hok
        refine ⟨rfl, ?_⟩
        cases hr : u.role with
        | agent => exact Or.inl rfl
        | customer =>
          refine Or.inr ⟨rfl, ?_⟩
          by_contra hne
          exact hcond ⟨hr, fun h => hne h.symm⟩

/-- Witness for C1 at concrete inputs: customer `B` reading `A`'s ticket is
forbidden, owner `A` gets the ticket, and a missing id is not found. -/
theorem get_ticket_read_policy_witness :
    get_ticket dbW "t1" custB = .error { status_code := 403, detail := "Access denied" } ∧
    get_ticket dbW "t1" custA = .ok tktA ∧
    get_ticket dbW "t2" custB = .error { status_code := 404, detail := "Ticket not found" } := by
  refine ⟨?_, ?_, ?_⟩
  · exact ((get_ticket_read_policy dbW "t1" custB).1 tktA rfl).2 rfl (by decide)
  · exact ((get_ticket_read_policy dbW "t1" custA).1 tktA rfl).1 (Or.inr ⟨rfl, rfl⟩)
  · exact (get_ticket_read_policy dbW "t2" custB).2.1 rfl

/-- C3: a customer's ticket update always fails 403 "Only agents can update
tickets" and leaves the store untouched; an update can only succeed when
the caller is an agent. -/
theorem customer_update_forbidden (db : DB) (tid : String) (upd : TicketUpdate)
    (u : User) (now : Nat) :
    (u.role = UserRole.customer →
      (update_ticket db tid upd u now).2 =
        .error { status_code := 403, detail := "Only agents can update tickets" } ∧
      (update_ticket db tid upd u now).1 = db) ∧
    (∀ t, (update_ticket db tid upd u now).2 = .ok t → u.role = UserRole.agent) := by
  constructor
  · intro hc
    have hne : u.role ≠ UserRole.agent := by rw [hc]; exact fun h => UserRole.noConfusion h
    rw [update_ticket, if_pos hne]
    exact ⟨rfl, rfl⟩
  · intro t hok
    by_contra hne
    rw [update_ticket, if_pos hne] at hok
    exact Except.noConfusion hok

/-- Witness for C3: customer `A` updating their own ticket is rejected and
the store is unchanged. -/
theorem customer_update_forbidden_witness :
    (update_ticket dbW "t1" { status := some TicketStatus.resolved, agent_id := none, agent_name := none } custA 5).2 =
      .error { status_code := 403, detail := "Only agents can update tickets" } ∧
    (update_ticket dbW "t1" { status := some TicketStatus.resolved, agent_id := none, agent_name := none } custA 5).1 = dbW :=
  (customer_update_forbidden dbW "t1"
    { status := some TicketStatus.resolved, agent_id := none, agent_name := none } custA 5).1 rfl

/-- C10: `update_ticket` checks the role before existence, so a customer
updating a nonexistent id gets 403 (not 404), while `get_ticket` checks
existence first and returns 404 for a nonexistent id whatever the caller's
role. -/
theorem update_role_check_precedes_existence (db : DB) (tid : String)
    (upd : TicketUpdate) (u v : User) (now : Nat) :
    db.tickets.find? (fun x => x.id == tid) = none →
    (u.role = UserRole.customer →
      (update_ticket db tid upd u now).2 =
        .error { status_code := 403, detail := "Only agents can update tickets" }) ∧
    get_ticket db tid v = .error { status_code := 404, detail := "Ticket not found" } := by
  intro hn
  constructor
  · intro hc
    have hne : u.role ≠ UserRole.agent := by rw [hc]; exact fun h => UserRole.noConfusion h
    rw [update_ticket, if_pos hne]
  · rw [get_ticket, hn]

/-- Witness for C10: id `"t2"` does not exist in the sample store; customer
`A`'s update gets 403 while agent `G`'s read of the same id gets 404. -/
theorem update_role_check_precedes_existence_witness :
    (update_ticket dbW "t2" { status := none, agent_id := none, agent_name := none } custA 5).2 =
      .error { status_code := 403, detail := "Only agents can update tickets" } ∧
    get_ticket dbW "t2" agentG = .error { status_code := 404, detail := "Ticket not found" } := by
  have h := update_role_check_precedes_existence dbW "t2"
    { status := none, agent_id := none, agent_name := none } custA agentG 5 rfl
  exact ⟨h.1 rfl, h.2⟩

/-- A sample ticket owned by customer `B`. -/
def tktB : Ticket :=
  { id := "t2", title := "T2", description := "D2",
    category := TicketCategory.software, priority := TicketPriority.high,
    status := TicketStatus.«open», customer_id := "B", customer_name := "Cust B",
    agent_id := none, agent_name := none, created_at := 0, updated_at := 0 }

/-- A database holding one ticket of customer `A` and one of customer `B`. -/
def dbAB : DB := { users := [], tickets := [tktA, tktB] }

/-- A database holding 1001 tickets, one more than the retrieval cap. -/
def bigDB : DB := { users := [], tickets := List.replicate 1001 tktA }

/-- Counterexample to C2 as stated: with 1001 stored tickets the agent
listing is truncated to the first 1000 documents (`to_list(1000)`), so it
is not the list of all stored tickets. -/
theorem get_tickets_agent_cap_cex : get_tickets bigDB agentG ≠ bigDB.tickets := by
  intro h
  have hg : get_tickets bigDB agentG = bigDB.tickets.take 1000 := by
    simp only [get_tickets]
    rw [if_neg (by decide)]
  have hlen := congrArg List.length (hg ▸ h)
  rw [List.length_take] at hlen
  simp only [bigDB, List.length_replicate] at hlen
  omega

/-- C2 (amended): every ticket in a customer's listing is a stored ticket
owned by that customer (so customer A's list never contains customer B's
ticket); and when the store holds at most 1000 tickets — the retrieval
cap — customers get exactly their own stored tickets and agents get all of
them. -/
theorem get_tickets_scoped (db : DB) (u : User) :
    (u.role = UserRole.customer →
      ∀ t ∈ get_tickets db u, t ∈ db.tickets ∧ t.customer_id = u.id) ∧
    (db.tickets.length ≤ 1000 →
      (u.role = UserRole.customer →
        get_tickets db u = db.tickets.filter (fun t => t.customer_id == u.id)) ∧
      (u.role = UserRole.agent → get_tickets db u = db.tickets)) := by
  constructor
  · intro hc t ht
    simp only [get_tickets] at ht
    rw [if_pos hc] at ht
    have ht' := List.mem_of_mem_take ht
    have hm := List.mem_filter.mp ht'
    exact ⟨hm.1, by simpa using hm.2⟩
  · intro hlen
    constructor
    · intro hc
      simp only [get_tickets]
      rw [if_pos hc]
      exact List.take_of_length_le (le_trans (List.length_filter_le _ _) hlen)
    · intro ha
      simp only [get_tickets]
      rw [if_neg (by rw [ha]; exact fun h => UserRole.noConfusion h)]
      exact List.take_of_length_le hlen

/-- Witness for the amended C2 on the two-ticket store: customer `A` sees
exactly the ticket they own, and the agent sees both. -/
theorem get_tickets_scoped_witness :
    (tktA ∈ dbAB.tickets ∧ tktA.customer_id = custA.id) ∧
    get_tickets dbAB custA = [tktA] ∧
    get_tickets dbAB agentG = dbAB.tickets := by
  have h := get_tickets_scoped dbAB custA
  have hg := get_tickets_scoped dbAB agentG
  have hfil : get_tickets dbAB custA = dbAB.tickets.filter (fun t => t.customer_id == custA.id) :=
    (h.2 (by decide)).1 rfl
  refine ⟨h.1 rfl tktA ?_, ?_, (hg.2 (by decide)).2 rfl⟩
  · rw [hfil]; decide
  · rw [hfil]; decide

/-- C4: a customer's ticket creation succeeds; the returned ticket is
persisted and carries status `open`, the caller's id and full name as
owner, no agent fields, and the freshly generated id (distinct from every
stored ticket's id when the generator is fresh); any non-customer caller
gets 403. -/
theorem create_ticket_policy (db : DB) (ticket_data : TicketCreate) (u : User)
    (newId : String) (now : Nat) :
    (u.role = UserRole.customer →
      ∃ t, (create_ticket db ticket_data u newId now).2 = .ok t ∧
        t.status = TicketStatus.«open» ∧
        t.customer_id = u.id ∧
        t.customer_name = u.full_name ∧
        t.agent_id = none ∧
        t.agent_name = none ∧
        t.id = newId ∧
        ((∀ t' ∈ db.tickets, t'.id ≠ newId) → ∀ t' ∈ db.tickets, t'.id ≠ t.id) ∧
        (create_ticket db ticket_data u newId now).1.tickets = db.tickets ++ [t]) ∧
    (u.role ≠ UserRole.customer →
      (create_ticket db ticket_data u newId now).2 =
        .error { status_code := 403, detail := "Only customers can create tickets" } ∧
      (create_ticket db ticket_data u newId now).1 = db) := by
  constructor
  · intro hc
    have hnot : ¬ u.role ≠ UserRole.customer := fun h => h hc
    refine ⟨{ id := newId, title := ticket_data.title, description := ticket_data.description,
              category := ticket_data.category, priority := ticket_data.priority,
              status := TicketStatus.«open», customer_id := u.id, customer_name := u.full_name,
              agent_id := none, agent_name := none, created_at := now, updated_at := now },
            ?_, rfl, rfl, rfl, rfl, rfl, rfl, ?_, ?_⟩
    · simp only [create_ticket]
      rw [if_neg hnot]
    · intro hfresh t' ht'
      exact hfresh t' ht'
    · simp only [create_ticket]
      rw [if_neg hnot]
  · intro hne
    simp only [create_ticket]
    rw [if_pos hne]
    exact ⟨rfl, rfl⟩

/-- Witness for C4: customer `B` creating a ticket in the sample store, and
agent `G` being rejected. -/
theorem create_ticket_policy_witness :
    (∃ t, (create_ticket dbW { title := "X", description := "Y", category := TicketCategory.network, priority := TicketPriority.low } custB "t7" 9).2 = .ok t ∧
      t.status = TicketStatus.«open» ∧
      t.customer_id = custB.id ∧
      t.customer_name = custB.full_name ∧
      t.agent_id = none ∧
      t.agent_name = none ∧
      t.id = "t7" ∧
      ((∀ t' ∈ dbW.tickets, t'.id ≠ "t7") → ∀ t' ∈ dbW.tickets, t'.id ≠ t.id) ∧
      (create_ticket dbW { title := "X", description := "Y", category := TicketCategory.network, priority := TicketPriority.low } custB "t7" 9).1.tickets = dbW.tickets ++ [t]) ∧
    (create_ticket dbW { title := "X", description := "Y", category := TicketCategory.network, priority := TicketPriority.low } agentG "t7" 9).2 =
      .error { status_code := 403, detail := "Only customers can create tickets" } := by
  constructor
  · exact (create_ticket_policy dbW
      { title := "X", description := "Y", category := TicketCategory.network, priority := TicketPriority.low }
      custB "t7" 9).1 rfl
  · exact ((create_ticket_policy dbW
      { title := "X", description := "Y", category := TicketCategory.network, priority := TicketPriority.low }
      agentG "t7" 9).2 (by decide)).1

/-- An empty-title, empty-description creation request. -/
def emptyReq : TicketCreate :=
  { title := "", description := "",
    category := TicketCategory.other, priority := TicketPriority.medium }

/-- Counterexample to C9 as stated: a customer request whose title and
description are both the empty string is not rejected — it succeeds and
the ticket is created and stored with the empty strings. -/
theorem create_ticket_accepts_empty_cex :
    (create_ticket dbW emptyReq custA "t9" 3).2 =
      .ok { id := "t9", title := "", description := "",
            category := TicketCategory.other, priority := TicketPriority.medium,
            status := TicketStatus.«open», customer_id := "A", customer_name := "Cust A",
            agent_id := none, agent_name := none, created_at := 3, updated_at := 3 } ∧
    (create_ticket dbW emptyReq custA "t9" 3).1.tickets =
      tktA :: [{ id := "t9", title := "", description := "",
                 category := TicketCategory.other, priority := TicketPriority.medium,
                 status := TicketStatus.«open», customer_id := "A", customer_name := "Cust A",
                 agent_id := none, agent_name := none, created_at := 3, updated_at := 3 }] := by
  constructor <;> rfl

/-- C9 (amended): title and description are required only by request
shape; no non-emptiness validation exists, so a customer request with
empty-string title and description succeeds and the ticket is created and
stored with those empty strings. -/
theorem create_ticket_no_emptiness_check (db : DB) (u : User)
    (c : TicketCategory) (p : TicketPriority) (newId : String) (now : Nat)
    (hc : u.role = UserRole.customer) :
    ∃ t, (create_ticket db { title := "", description := "", category := c, priority := p } u newId now).2 = .ok t ∧
      t.title = "" ∧ t.description = "" ∧
      (create_ticket db { title := "", description := "", category := c, priority := p } u newId now).1.tickets = db.tickets ++ [t] := by
  have hnot : ¬ u.role ≠ UserRole.customer := fun h => h hc
  refine ⟨{ id := newId, title := "", description := "",
            category := c, priority := p,
            status := TicketStatus.«open», customer_id := u.id, customer_name := u.full_name,
            agent_id := none, agent_name := none, created_at := now, updated_at := now },
          ?_, rfl, rfl, ?_⟩
  · simp only [create_ticket]
    rw [if_neg hnot]
  · simp only [create_ticket]
    rw [if_neg hnot]

/-- Witness for the amended C9: customer `B` files an empty-title,
empty-description ticket and it is accepted and stored. -/
theorem create_ticket_no_emptiness_check_witness :
    ∃ t, (create_ticket dbW { title := "", description := "", category := TicketCategory.account, priority := TicketPriority.critical } custB "t8" 4).2 = .ok t ∧
      t.title = "" ∧ t.description = "" ∧
      (create_ticket dbW { title := "", description := "", category := TicketCategory.account, priority := TicketPriority.critical } custB "t8" 4).1.tickets = dbW.tickets ++ [t] :=
  create_ticket_no_emptiness_check dbW custB TicketCategory.account TicketPriority.critical "t8" 4 rfl

/-- Auxiliary: rewriting the first document matching an id preserves the
id-lookup, which then returns the rewritten document, provided the rewrite
keeps the id. -/
theorem find?_updateFirst (ts : List Ticket) (tid : String) (f : Ticket → Ticket)
    (t : Ticket) (hf : ts.find? (fun x => x.id == tid) = some t)
    (hid : (f t).id = t.id) :
    (updateFirst ts tid f).find? (fun x => x.id == tid) = some (f t) := by
  induction ts with
  | nil => exact Option.noConfusion hf
  | cons a rest ih =>
    cases ha : (a.id == tid) with
    | false =>
      rw [List.find?_cons_of_neg _ (by simp [ha])] at hf
      simp only [updateFirst]
      rw [if_neg (by simp [ha])]
      rw [List.find?_cons_of_neg _ (by simp [ha])]
      exact ih hf
    | true =>
      rw [List.find?_cons_of_pos _ (by simp [ha])] at hf
      obtain rfl : a = t := Option.some.inj hf
      simp only [updateFirst]
      rw [if_pos ha]
      rw [List.find?_cons_of_pos]
      show ((f a).id == tid) = true
      rw [hid]
      exact ha

/-- C5: an agent update of an existing ticket succeeds; among
status / agent_id / agent_name exactly the fields supplied with a truthy
(non-`None`, non-empty) value change, every other ticket field is
untouched, and `updated_at` is set to the update time unconditionally —
also when no effective field is supplied. The updated document is both
returned and stored. -/
theorem update_ticket_partial_fields (db : DB) (tid : String) (upd : TicketUpdate)
    (u : User) (now : Nat) (t : Ticket)
    (ha : u.role = UserRole.agent)
    (ht : db.tickets.find? (fun x => x.id == tid) = some t) :
    ∃ t', (update_ticket db tid upd u now).2 = .ok t' ∧
      (update_ticket db tid upd u now).1.tickets.find? (fun x => x.id == tid) = some t' ∧
      t'.id = t.id ∧
      t'.title = t.title ∧
      t'.description = t.description ∧
      t'.category = t.category ∧
      t'.priority = t.priority ∧
      t'.customer_id = t.customer_id ∧
      t'.customer_name = t.customer_name ∧
      t'.created_at = t.created_at ∧
      t'.updated_at = now ∧
      (upd.status = none → t'.status = t.status) ∧
      (∀ s, upd.status = some s → t'.status = s) ∧
      ((upd.agent_id = none ∨ upd.agent_id = some "") → t'.agent_id = t.agent_id) ∧
      (∀ s, upd.agent_id = some s → s ≠ "" → t'.agent_id = some s) ∧
      ((upd.agent_name = none ∨ upd.agent_name = some "") → t'.agent_name = t.agent_name) ∧
      (∀ s, upd.agent_name = some s → s ≠ "" → t'.agent_name = some s) := by
  have hnot : ¬ u.role ≠ UserRole.agent := fun h => h ha
  have hid : (applyTicketUpdate upd now t).id = t.id := rfl
  have hfind := find?_updateFirst db.tickets tid (applyTicketUpdate upd now) t ht hid
  have hstep : update_ticket db tid upd u now =
      ({ db with tickets := updateFirst db.tickets tid (applyTicketUpdate upd now) },
        Except.ok (applyTicketUpdate upd now t)) := by
    simp only [update_ticket, ht, hfind]
    rw [if_neg hnot]
  refine ⟨applyTicketUpdate upd now t, by rw [hstep], ?_, rfl, rfl, rfl, rfl, rfl, rfl, rfl,
    rfl, rfl, ?_, ?_, ?_, ?_, ?_, ?_⟩
  · rw [hstep]
    exact hfind
  · intro h
    simp only [applyTicketUpdate]
    rw [h]
  · intro s h
    simp only [applyTicketUpdate]
    rw [h]
  · rintro (h | h) <;> simp [applyTicketUpdate, h]
  · intro s h hs
    simp [applyTicketUpdate, h, hs]
  · rintro (h | h) <;> simp [applyTicketUpdate, h]
  · intro s h hs
    simp [applyTicketUpdate, h, hs]

/-- Witness for C5 at concrete inputs: agent `G` sets only the status (the
agent name is supplied as the empty string, the agent id not at all); the
agent fields keep their previous values and `updated_at` becomes the
update time. -/
theorem update_ticket_partial_fields_witness :
    ∃ t', (update_ticket dbW "t1"
        { status := some TicketStatus.in_progress, agent_id := none, agent_name := some "" }
        agentG 7).2 = .ok t' ∧
      t'.status = TicketStatus.in_progress ∧
      t'.agent_id = tktA.agent_id ∧
      t'.agent_name = tktA.agent_name ∧
      t'.updated_at = 7 := by
  obtain ⟨t', h1, _h2, _hid, _httl, _hdesc, _hcat, _hpri, _hcid, _hcname, _hcre,
      hupd, _hsn, hss, hain, _hais, hann, _hans⟩ :=
    update_ticket_partial_fields dbW "t1"
      { status := some TicketStatus.in_progress, agent_id := none, agent_name := some "" }
      agentG 7 tktA rfl rfl
  exact ⟨t', h1, hss _ rfl, hain (Or.inl rfl), hann (Or.inr rfl), hupd⟩

/-- C6: the login failure for an unknown email and the login failure for a
failing hash comparison are the very same error value — same kind
(`HTTPException`), same status 401, same message — so the two runs are
indistinguishable to the caller. -/
theorem login_failure_indistinguishable (db : DB) (cpw : String → String → Bool)
    (d : UserLogin) (now : Nat) :
    (db.users.find? (fun x => x.email == d.email) = none →
      login db cpw d now =
        .error { status_code := 401, detail := "Invalid email or password" }) ∧
    (∀ su, db.users.find? (fun x => x.email == d.email) = some su →
      cpw d.password su.password = false →
      login db cpw d now =
        .error { status_code := 401, detail := "Invalid email or password" }) := by
  constructor
  · intro hn
    simp only [login, hn]
  · intro su hs hw
    simp only [login, hs]
    rw [if_neg (by rw [hw]; exact Bool.false_ne_true)]

/-- Witness for C6: against the sample store, an unknown email and a known
email with a failing comparison produce the identical 401 error. -/
theorem login_failure_indistinguishable_witness :
    login dbW (fun _ _ => false) { email := "z@example.com", password := "p" } 0 =
      .error { status_code := 401, detail := "Invalid email or password" } ∧
    login dbW (fun _ _ => false) { email := "a@example.com", password := "p" } 0 =
      .error { status_code := 401, detail := "Invalid email or password" } := by
  constructor
  · exact (login_failure_indistinguishable dbW (fun _ _ => false)
      { email := "z@example.com", password := "p" } 0).1 rfl
  · exact (login_failure_indistinguishable dbW (fun _ _ => false)
      { email := "a@example.com", password := "p" } 0).2 storedA rfl rfl

/-- Replacement of every stored user's password hash, keeping all public
fields: the vehicle for stating that responses do not depend on hashes. -/
def DB.mapPw (db : DB) (f : StoredUser → String) : DB :=
  { db with users := db.users.map (fun su => { su with password := f su }) }

/-- Auxiliary: looking a user up by email commutes with replacing the
stored hashes, because the lookup predicate reads only the email. -/
theorem find?_email_mapPw (us : List StoredUser) (f : StoredUser → String) (e : String) :
    (us.map (fun su => { su with password := f su })).find? (fun x => x.email == e) =
      (us.find? (fun x => x.email == e)).map (fun su => { su with password := f su }) := by
  rw [List.find?_map]
  rfl

/-- C7: no successful response carries the stored password hash. The
register response does not depend on the hashing function nor on any
stored hash, the login response is unchanged when every stored hash is
replaced (whenever the hash comparison outcome is unchanged, e.g. on the
success path), and the current-user response is a projection of the
hash-free `User` value — the hash is persisted but never surfaces. -/
theorem responses_exclude_password_hash (db : DB) (hp1 hp2 : String → String)
    (f : StoredUser → String) (reg : UserCreate) (lg : UserLogin)
    (cpw : String → String → Bool) (newId : String) (now : Nat) (u : User) :
    ((register db hp1 reg newId now).2 = (register db hp2 reg newId now).2) ∧
    ((register (db.mapPw f) hp1 reg newId now).2 = (register db hp1 reg newId now).2) ∧
    ((∀ su : StoredUser, cpw lg.password (f su) = cpw lg.password su.password) →
      login (db.mapPw f) cpw lg now = login db cpw lg now) ∧
    get_current_user_info u = u.toResponse := by
  refine ⟨?_, ?_, ?_, rfl⟩
  · cases hf : db.users.find? (fun x => x.email == reg.email) with
    | none => simp only [register, hf]
    | some su => simp only [register, hf]
  · have hm := find?_email_mapPw db.users f reg.email
    cases hf : db.users.find? (fun x => x.email == reg.email) with
    | none =>
      rw [hf] at hm
      simp only [register, DB.mapPw, hm, hf, Option.map]
    | some su =>
      rw [hf] at hm
      simp only [register, DB.mapPw, hm, hf, Option.map]
  · intro hcp
    have hm := find?_email_mapPw db.users f lg.email
    cases hf : db.users.find? (fun x => x.email == lg.email) with
    | none =>
      rw [hf] at hm
      simp only [login, DB.mapPw, hm, hf, Option.map]
    | some su =>
      rw [hf] at hm
      simp only [login, DB.mapPw, hm, hf, Option.map]
      rw [hcp su]
      rfl

/-- Witness for C7: scrubbing the sample store's hash changes neither the
register response nor the login response. -/
theorem responses_exclude_password_hash_witness :
    (register (dbW.mapPw (fun _ => "scrubbed")) (fun p => p) { email := "c@example.com", password := "pw", full_name := "C", role := UserRole.customer } "C" 1).2 =
      (register dbW (fun p => p) { email := "c@example.com", password := "pw", full_name := "C", role := UserRole.customer } "C" 1).2 ∧
    login (dbW.mapPw (fun _ => "scrubbed")) (fun _ _ => true) { email := "a@example.com", password := "pw" } 1 =
      login dbW (fun _ _ => true) { email := "a@example.com", password := "pw" } 1 := by
  have h := responses_exclude_password_hash dbW (fun p => p) (fun p => p)
    (fun _ => "scrubbed") { email := "c@example.com", password := "pw", full_name := "C", role := UserRole.customer }
    { email := "a@example.com", password := "pw" } (fun _ _ => true) "C" 1 custA
  exact ⟨h.2.1, h.2.2.1 (fun _ => rfl)⟩

/-- C8: a token issued at time `t` for a user id embeds that id as `sub`
and the absolute expiration `t + 24` hours; it decodes successfully at any
earlier time (so the authenticated lookup succeeds for a stored user), and
at or after the expiration the authenticated request fails with the 401
outcome. -/
theorem token_issue_verify_lifecycle (db : DB) (uid : String) (t now : Nat) :
    (create_access_token uid t).payload.sub = some uid ∧
    (create_access_token uid t).payload.exp = t + 24 * 3600 ∧
    (now < t + 24 * 3600 →
      jwt_decode (create_access_token uid t) JWT_SECRET now =
        some { sub := some uid, exp := t + 24 * 3600 }) ∧
    (now < t + 24 * 3600 → ∀ su, db.users.find? (fun x => x.id == uid) = some su →
      get_current_user db (create_access_token uid t) now = .ok su.toUser) ∧
    (t + 24 * 3600 ≤ now →
      get_current_user db (create_access_token uid t) now =
        .error { status_code := 401, detail := "Invalid authentication credentials" }) := by
  have hjd : ∀ n : Nat, jwt_decode (create_access_token uid t) JWT_SECRET n =
      if JWT_SECRET = JWT_SECRET ∧ n < t + 24 * 3600 then
        some { sub := some uid, exp := t + 24 * 3600 }
      else none := fun n => rfl
  refine ⟨rfl, rfl, ?_, ?_, ?_⟩
  · intro hlt
    rw [hjd now, if_pos ⟨rfl, hlt⟩]
  · intro hlt su hsu
    have hdec : jwt_decode (create_access_token uid t) JWT_SECRET now =
        some { sub := some uid, exp := t + 24 * 3600 } := by
      rw [hjd now, if_pos ⟨rfl, hlt⟩]
    simp only [get_current_user, hdec, hsu]
  · intro hge
    have hdec : jwt_decode (create_access_token uid t) JWT_SECRET now = none := by
      rw [hjd now, if_neg]
      rintro ⟨_, hlt⟩
      omega
    simp only [get_current_user, hdec]

/-- Witness for C8: the token issued at time 0 for user `A` decodes at
time 5 and authenticates `A`, and at time 86400 (exactly 24 hours later)
authentication fails with 401. -/
theorem token_issue_verify_lifecycle_witness :
    jwt_decode (create_access_token "A" 0) JWT_SECRET 5 =
      some { sub := some "A", exp := 0 + 24 * 3600 } ∧
    get_current_user dbW (create_access_token "A" 0) 5 = .ok storedA.toUser ∧
    get_current_user dbW (create_access_token "A" 0) 86400 =
      .error { status_code := 401, detail := "Invalid authentication credentials" } := by
  have h1 := token_issue_verify_lifecycle dbW "A" 0 5
  have h2 := token_issue_verify_lifecycle dbW "A" 0 86400
  exact ⟨h1.2.2.1 (by omega), h1.2.2.2.1 (by omega) storedA rfl, h2.2.2.2.2 (by omega)⟩

end DigiBuster
